import Mathlib

/-!
# Dalamud.Boot vectored exception handler (`src/Dalamud.Boot/veh.cpp`)

A shallow embedding of the crash handler and the properties it satisfies.

* Machine words (`DWORD`, `DWORD64`, `PVOID`) are `Nat`; a null pointer is `0`.
* `LONG` dispositions are `Int`.
* Wide strings are lists of characters.
* Win32, DbgHelp, CRT and STL routines whose code is not part of the repository are
  fields of `Env`: every theorem holds for all of them.
* Observable actions (memory reads, file output, the dump, the message box) are
  recorded, in program order, in a list of `Event`s.
* The stack-walk loop, whose length depends on the unwinder, takes a step budget.
-/

namespace DalamudBoot

/-- The type std::wstring: a sequence of wide characters. -/
abbrev wstring := List Char

/-! ## Status codes and dispositions -/

/-- The NTSTATUS macros named by the switch of `is_whitelist_exception` (veh.cpp 14-45).
They come from the Windows SDK headers, which are not in the repository, so their
values are a parameter. -/
structure NtStatus where
  STATUS_ACCESS_VIOLATION : Nat
  STATUS_IN_PAGE_ERROR : Nat
  STATUS_INVALID_HANDLE : Nat
  STATUS_INVALID_PARAMETER : Nat
  STATUS_NO_MEMORY : Nat
  STATUS_ILLEGAL_INSTRUCTION : Nat
  STATUS_NONCONTINUABLE_EXCEPTION : Nat
  STATUS_INVALID_DISPOSITION : Nat
  STATUS_ARRAY_BOUNDS_EXCEEDED : Nat
  STATUS_FLOAT_DENORMAL_OPERAND : Nat
  STATUS_FLOAT_DIVIDE_BY_ZERO : Nat
  STATUS_FLOAT_INEXACT_RESULT : Nat
  STATUS_FLOAT_INVALID_OPERATION : Nat
  STATUS_FLOAT_OVERFLOW : Nat
  STATUS_FLOAT_STACK_CHECK : Nat
  STATUS_FLOAT_UNDERFLOW : Nat
  STATUS_INTEGER_DIVIDE_BY_ZERO : Nat
  STATUS_INTEGER_OVERFLOW : Nat
  STATUS_PRIVILEGED_INSTRUCTION : Nat
  STATUS_STACK_OVERFLOW : Nat
  STATUS_DLL_NOT_FOUND : Nat
  STATUS_ORDINAL_NOT_FOUND : Nat
  STATUS_ENTRYPOINT_NOT_FOUND : Nat
  STATUS_DLL_INIT_FAILED : Nat
  STATUS_CONTROL_STACK_VIOLATION : Nat
  STATUS_FLOAT_MULTIPLE_FAULTS : Nat
  STATUS_FLOAT_MULTIPLE_TRAPS : Nat
  STATUS_HEAP_CORRUPTION : Nat
  STATUS_STACK_BUFFER_OVERRUN : Nat
  STATUS_INVALID_CRUNTIME_PARAMETER : Nat
  STATUS_THREAD_NOT_RUNNING : Nat
  STATUS_ALREADY_REGISTERED : Nat

/-- Modelled from the spec: the numeric values of the NTSTATUS macros, which the
repository takes from the Windows SDK headers (winnt.h, ntstatus.h). The spec only
names the conditions; the values are the ones those headers publish. -/
def winnt : NtStatus where
  STATUS_ACCESS_VIOLATION := 0xC0000005
  STATUS_IN_PAGE_ERROR := 0xC0000006
  STATUS_INVALID_HANDLE := 0xC0000008
  STATUS_INVALID_PARAMETER := 0xC000000D
  STATUS_NO_MEMORY := 0xC0000017
  STATUS_ILLEGAL_INSTRUCTION := 0xC000001D
  STATUS_NONCONTINUABLE_EXCEPTION := 0xC0000025
  STATUS_INVALID_DISPOSITION := 0xC0000026
  STATUS_ARRAY_BOUNDS_EXCEEDED := 0xC000008C
  STATUS_FLOAT_DENORMAL_OPERAND := 0xC000008D
  STATUS_FLOAT_DIVIDE_BY_ZERO := 0xC000008E
  STATUS_FLOAT_INEXACT_RESULT := 0xC000008F
  STATUS_FLOAT_INVALID_OPERATION := 0xC0000090
  STATUS_FLOAT_OVERFLOW := 0xC0000091
  STATUS_FLOAT_STACK_CHECK := 0xC0000092
  STATUS_FLOAT_UNDERFLOW := 0xC0000093
  STATUS_INTEGER_DIVIDE_BY_ZERO := 0xC0000094
  STATUS_INTEGER_OVERFLOW := 0xC0000095
  STATUS_PRIVILEGED_INSTRUCTION := 0xC0000096
  STATUS_STACK_OVERFLOW := 0xC00000FD
  STATUS_DLL_NOT_FOUND := 0xC0000135
  STATUS_ORDINAL_NOT_FOUND := 0xC0000138
  STATUS_ENTRYPOINT_NOT_FOUND := 0xC0000139
  STATUS_DLL_INIT_FAILED := 0xC0000142
  STATUS_CONTROL_STACK_VIOLATION := 0xC00001B2
  STATUS_FLOAT_MULTIPLE_FAULTS := 0xC00002B4
  STATUS_FLOAT_MULTIPLE_TRAPS := 0xC00002B5
  STATUS_HEAP_CORRUPTION := 0xC0000374
  STATUS_STACK_BUFFER_OVERRUN := 0xC0000409
  STATUS_INVALID_CRUNTIME_PARAMETER := 0xC0000417
  STATUS_THREAD_NOT_RUNNING := 0xC0000516
  STATUS_ALREADY_REGISTERED := 0xC0000718

/-- Modelled from the spec: the breakpoint exception code (STATUS_BREAKPOINT of the
Windows SDK headers), the spec's example of a code that is not whitelisted. -/
def STATUS_BREAKPOINT : Nat := 0x80000003

/-- Modelled from the spec: the code under which the C++ runtime raises a language-level
exception, the spec's "routine language-level exceptions". -/
def CPP_EXCEPTION_CODE : Nat := 0xE06D7363

/-- Modelled from the spec: the disposition "continue search" (EXCEPTION_CONTINUE_SEARCH
of the Windows SDK headers). -/
def EXCEPTION_CONTINUE_SEARCH : Int := 0

/-- Modelled from the spec: the disposition with which a handler would swallow a fault
(EXCEPTION_CONTINUE_EXECUTION of the Windows SDK headers). -/
def EXCEPTION_CONTINUE_EXECUTION : Int := -1

/-- The classifier `is_whitelist_exception` (veh.cpp 10-50): the switch compares the code
with each case label in turn and returns true at the first match, false by default. -/
def is_whitelist_exception (nt : NtStatus) (code : Nat) : Bool :=
  if code = nt.STATUS_ACCESS_VIOLATION then true
  else if code = nt.STATUS_IN_PAGE_ERROR then true
  else if code = nt.STATUS_INVALID_HANDLE then true
  else if code = nt.STATUS_INVALID_PARAMETER then true
  else if code = nt.STATUS_NO_MEMORY then true
  else if code = nt.STATUS_ILLEGAL_INSTRUCTION then true
  else if code = nt.STATUS_NONCONTINUABLE_EXCEPTION then true
  else if code = nt.STATUS_INVALID_DISPOSITION then true
  else if code = nt.STATUS_ARRAY_BOUNDS_EXCEEDED then true
  else if code = nt.STATUS_FLOAT_DENORMAL_OPERAND then true
  else if code = nt.STATUS_FLOAT_DIVIDE_BY_ZERO then true
  else if code = nt.STATUS_FLOAT_INEXACT_RESULT then true
  else if code = nt.STATUS_FLOAT_INVALID_OPERATION then true
  else if code = nt.STATUS_FLOAT_OVERFLOW then true
  else if code = nt.STATUS_FLOAT_STACK_CHECK then true
  else if code = nt.STATUS_FLOAT_UNDERFLOW then true
  else if code = nt.STATUS_INTEGER_DIVIDE_BY_ZERO then true
  else if code = nt.STATUS_INTEGER_OVERFLOW then true
  else if code = nt.STATUS_PRIVILEGED_INSTRUCTION then true
  else if code = nt.STATUS_STACK_OVERFLOW then true
  else if code = nt.STATUS_DLL_NOT_FOUND then true
  else if code = nt.STATUS_ORDINAL_NOT_FOUND then true
  else if code = nt.STATUS_ENTRYPOINT_NOT_FOUND then true
  else if code = nt.STATUS_DLL_INIT_FAILED then true
  else if code = nt.STATUS_CONTROL_STACK_VIOLATION then true
  else if code = nt.STATUS_FLOAT_MULTIPLE_FAULTS then true
  else if code = nt.STATUS_FLOAT_MULTIPLE_TRAPS then true
  else if code = nt.STATUS_HEAP_CORRUPTION then true
  else if code = nt.STATUS_STACK_BUFFER_OVERRUN then true
  else if code = nt.STATUS_INVALID_CRUNTIME_PARAMETER then true
  else if code = nt.STATUS_THREAD_NOT_RUNNING then true
  else if code = nt.STATUS_ALREADY_REGISTERED then true
  else false

/-- The whitelist as the specification enumerates it: nine general conditions, the seven
floating-point traps with the two multiple-fault codes, four arithmetic and stack
conditions, four loader failures and six corruption or runtime conditions. -/
def whitelist_of_spec (nt : NtStatus) : List Nat :=
  [nt.STATUS_ACCESS_VIOLATION, nt.STATUS_IN_PAGE_ERROR, nt.STATUS_INVALID_HANDLE,
   nt.STATUS_INVALID_PARAMETER, nt.STATUS_NO_MEMORY, nt.STATUS_ILLEGAL_INSTRUCTION,
   nt.STATUS_NONCONTINUABLE_EXCEPTION, nt.STATUS_INVALID_DISPOSITION,
   nt.STATUS_ARRAY_BOUNDS_EXCEEDED,
   nt.STATUS_FLOAT_DENORMAL_OPERAND, nt.STATUS_FLOAT_DIVIDE_BY_ZERO,
   nt.STATUS_FLOAT_INEXACT_RESULT, nt.STATUS_FLOAT_INVALID_OPERATION,
   nt.STATUS_FLOAT_OVERFLOW, nt.STATUS_FLOAT_STACK_CHECK, nt.STATUS_FLOAT_UNDERFLOW,
   nt.STATUS_FLOAT_MULTIPLE_FAULTS, nt.STATUS_FLOAT_MULTIPLE_TRAPS,
   nt.STATUS_INTEGER_DIVIDE_BY_ZERO, nt.STATUS_INTEGER_OVERFLOW,
   nt.STATUS_PRIVILEGED_INSTRUCTION, nt.STATUS_STACK_OVERFLOW,
   nt.STATUS_DLL_NOT_FOUND, nt.STATUS_ORDINAL_NOT_FOUND, nt.STATUS_ENTRYPOINT_NOT_FOUND,
   nt.STATUS_DLL_INIT_FAILED,
   nt.STATUS_CONTROL_STACK_VIOLATION, nt.STATUS_HEAP_CORRUPTION,
   nt.STATUS_STACK_BUFFER_OVERRUN, nt.STATUS_INVALID_CRUNTIME_PARAMETER,
   nt.STATUS_THREAD_NOT_RUNNING, nt.STATUS_ALREADY_REGISTERED]

/-! ## Machine records -/

/-- The registers of CONTEXT that the handler reads. -/
structure CONTEXT where
  Rax : Nat
  Rbx : Nat
  Rcx : Nat
  Rdx : Nat
  R8 : Nat
  R9 : Nat
  R10 : Nat
  R11 : Nat
  R12 : Nat
  R13 : Nat
  R14 : Nat
  R15 : Nat
  Rsi : Nat
  Rdi : Nat
  Rbp : Nat
  Rsp : Nat
  Rip : Nat
deriving DecidableEq

/-- The field of EXCEPTION_RECORD that the handler reads. -/
structure EXCEPTION_RECORD where
  ExceptionCode : Nat
deriving DecidableEq

/-- The fault event handed to the handler by the operating system. -/
structure EXCEPTION_POINTERS where
  ExceptionRecord : EXCEPTION_RECORD
  ContextRecord : CONTEXT
deriving DecidableEq

/-- The frame cursor of the unwinder: the offsets of AddrPC, AddrReturn, AddrFrame and
AddrStack, and `other` for the remaining fields, which the handler never touches. -/
structure STACKFRAME64 where
  AddrPC : Nat
  AddrReturn : Nat
  AddrFrame : Nat
  AddrStack : Nat
  other : Nat
deriving DecidableEq

/-- Observable actions of the handler, in program order. -/
inductive Event where
  /-- ReadProcessMemory of eight bytes at `address` (veh.cpp 103). -/
  | ReadProcessMemory (address : Nat)
  /-- A nested call of to_address_string (veh.cpp 113). -/
  | to_address_string (address : Nat) (try_ptrderef : Bool)
  /-- A direct eight-byte load from a stack slot (veh.cpp 175). -/
  | load (address : Nat)
  /-- The log stream is opened in truncate mode (veh.cpp 207). -/
  | log_open (path : wstring)
  /-- The log stream is closed, having received `content` (veh.cpp 216). -/
  | log_close (path : wstring) (content : wstring)
  | SymRefreshModuleList
  | CreateFileW (path : wstring)
  | MiniDumpWriteDump (path : wstring) (ThreadId : Nat) (ex : EXCEPTION_POINTERS)
  | CloseHandle (path : wstring)
  | MessageBoxW (text : wstring) (caption : wstring)
  | SymInitializeW
deriving DecidableEq

/-- The routines and build parameters that the source takes from outside the repository. -/
structure Env where
  /-- The NTSTATUS macros. -/
  nt : NtStatus
  /-- Whether NDEBUG is defined (release build). -/
  NDEBUG : Bool
  /-- The address of exception_handler itself. -/
  exception_handler_address : Nat
  /-- The indeterminate initial contents of the local STACKFRAME64 (veh.cpp 121). -/
  sf_uninit : STACKFRAME64
  /-- GetModuleHandleExA with FROM_ADDRESS: the handle of the module that contains the
  address, or failure. -/
  GetModuleHandleExA : Nat → Option Nat
  /-- GetModuleFileNameW: the characters copied to the buffer; their number is the
  returned length, so the empty list is failure. -/
  GetModuleFileNameW : Nat → wstring
  /-- SymFromAddrW: displacement and symbol name, or failure. -/
  SymFromAddrW : Nat → Option (Nat × wstring)
  /-- SymFromAddrW once SymRefreshModuleList has run. -/
  SymFromAddrW_refreshed : Nat → Option (Nat × wstring)
  /-- ReadProcessMemory of eight bytes into a buffer that holds 0: the contents of the
  buffer after the call (the return status is not looked at by the source). -/
  ReadProcessMemory : Nat → Nat
  /-- A direct eight-byte load; `none` when the access faults. -/
  load : Nat → Option Nat
  /-- StackWalk64: the cursor and context after one step, or failure. -/
  StackWalk64 : STACKFRAME64 → CONTEXT → Option (STACKFRAME64 × CONTEXT)
  /-- The member std::filesystem::path::filename. -/
  filename : wstring → wstring
  /-- The member std::filesystem::path::replace_filename. -/
  replace_filename : wstring → wstring → wstring
  /-- The CRT routine _wcsicmp. -/
  wcsicmp : wstring → wstring → Int
  /-- The zoned current time as the stream prints it. -/
  zoned_time : wstring
  GetCurrentThreadId : Nat

/-- The environment after SymRefreshModuleList (veh.cpp 213). -/
def Env.refreshed (env : Env) : Env :=
  { env with SymFromAddrW := env.SymFromAddrW_refreshed }

/-! ## Formatting -/

/-- One upper-case hexadecimal digit. -/
def hexDigit (d : Nat) : Char :=
  if d < 10 then Char.ofNat (48 + d) else Char.ofNat (55 + d)

/-- The hexadecimal digits of `n`, least significant first; `fuel` bounds their number. -/
def hexRev : Nat → Nat → List Char
  | 0, _ => []
  | fuel + 1, n => if n = 0 then [] else hexDigit (n % 16) :: hexRev fuel (n / 16)

/-- The rendering of std::format with the conversion X: upper-case hexadecimal, no prefix, no
padding. -/
def fmtX (n : Nat) : wstring :=
  if n = 0 then ['0'] else (hexRev n n).reverse

/-- The rendering of std::format with the default conversion of an integer: decimal. -/
def fmtD (n : Nat) : wstring := Nat.toDigits 10 n

/-- The value of a hexadecimal digit character, if it is one. -/
def hexValue (c : Char) : Option Nat :=
  if 48 ≤ c.toNat ∧ c.toNat ≤ 57 then some (c.toNat - 48)
  else if 65 ≤ c.toNat ∧ c.toNat ≤ 70 then some (c.toNat - 55)
  else none

/-- Reads an upper-case hexadecimal numeral, most significant digit first. -/
def parseHex (s : wstring) : Option Nat :=
  s.foldl (fun acc c => acc.bind (fun a => (hexValue c).map (fun d => 16 * a + d))) (some 0)

/-! ## Module and symbol lookup -/

/-- The lookup `get_module_file_and_base` (veh.cpp 53-66): base and file of the module that
contains the address. -/
def get_module_file_and_base (env : Env) (address : Nat) : Option (Nat × wstring) :=
  match env.GetModuleHandleExA address with
  | some handle =>
    let path := env.GetModuleFileNameW handle
    if path.length > 0 then some (handle, path) else none
  | none => none

/-- The test `is_ffxiv_address` (veh.cpp 69-75). -/
def is_ffxiv_address (env : Env) (address : Nat) : Bool :=
  match get_module_file_and_base env address with
  | some (_, module_path) =>
    decide (env.wcsicmp (env.filename module_path) "ffxiv_dx11.exe".toList = 0)
  | none => false

/-- The lookup `get_sym_from_addr` (veh.cpp 78-91): displacement and symbol name. -/
def get_sym_from_addr (env : Env) (address : Nat) : Option (Nat × wstring) :=
  match env.SymFromAddrW address with
  | some (displacement, name) => some (displacement, name)
  | none => none

/-! ## Address resolution -/

/-- The resolver `to_address_string` (veh.cpp 94-114), returning the text together with the
memory reads and nested calls it made. The subtraction is that of DWORD64. The recursion
is the one of the source; it is well founded because the nested call is only reached
with a non-zero `value`, which only a read with `try_ptrderef` set can produce. -/
def to_address_string (env : Env) (address : Nat) (try_ptrderef : Bool) :
    wstring × List Event :=
  let is_mod_addr := get_module_file_and_base env address
  let reads : Bool :=
    try_ptrderef && decide (address > 0x10000) && decide (address < 0x7FFFFFFE0000)
  let value : Nat := if reads then env.ReadProcessMemory address else 0
  let events : List Event := if reads then [Event.ReadProcessMemory address] else []
  let addr_str : wstring :=
    match is_mod_addr with
    | some (module_base, module_path) =>
      env.filename module_path ++ "+".toList ++ fmtX ((address + 2 ^ 64 - module_base) % 2 ^ 64)
    | none => fmtX address
  match get_sym_from_addr env address with
  | some (displacement, symbol) =>
    (addr_str ++ "\t(".toList
      ++ (if displacement ≠ 0 then symbol ++ "+0x".toList ++ fmtX displacement else symbol)
      ++ ")".toList, events)
  | none =>
    if h : value ≠ 0 then
      have : try_ptrderef = true := by
        cases try_ptrderef
        · exact absurd rfl h
        · rfl
      let nested := to_address_string env value false
      (addr_str ++ " [".toList ++ nested.1 ++ "]".toList,
        events ++ [Event.to_address_string value false] ++ nested.2)
    else (addr_str, events)
termination_by (if try_ptrderef then 1 else 0)
decreasing_by simp_all

/-! ## The report -/

/-- How a routine that may loop or fault ends. -/
inductive Outcome (α : Type) where
  /-- The routine returned `a`. -/
  | returned (a : α)
  /-- A direct memory access raised a fault inside the routine. -/
  | faulted
  /-- The routine is still looping when the step budget ends. -/
  | running
deriving DecidableEq

/-- The locals of `print_exception_info` during the stack walk (veh.cpp 121-140). The
counter `frame_index` is an int in the source; it is a natural number here. -/
structure WalkState where
  sf : STACKFRAME64
  ctx : CONTEXT
  frame_index : Nat
  log : wstring
  trace : List Event
deriving DecidableEq

/-- The loop test of the walk (veh.cpp 140). -/
def walk_continues (sf : STACKFRAME64) : Bool :=
  decide (sf.AddrReturn ≠ 0) && decide (sf.AddrPC ≠ sf.AddrReturn)

/-- One frame line of the call stack (veh.cpp 131 and 138). -/
def log_frame (env : Env) (w : WalkState) (sf : STACKFRAME64) (ctx : CONTEXT) : WalkState :=
  let resolved := to_address_string env sf.AddrPC false
  { sf := sf, ctx := ctx, frame_index := w.frame_index + 1,
    log := w.log ++ "\n  [".toList ++ fmtD w.frame_index ++ "]\t".toList ++ resolved.1,
    trace := w.trace ++ resolved.2 }

/-- The do-while loop of the walk (veh.cpp 133-140) with a budget of iterations: `none`
when the budget ends before the loop does. -/
def stack_walk (env : Env) : Nat → WalkState → Option WalkState
  | 0, _ => none
  | fuel + 1, w =>
    match env.StackWalk64 w.sf w.ctx with
    | none => some w
    | some (sf, ctx) =>
      let w1 := log_frame env w sf ctx
      if walk_continues sf then stack_walk env fuel w1 else some w1

/-- The registers in the order in which the report lists them (veh.cpp 148-165). -/
def register_lines (ctx : CONTEXT) : List (wstring × Nat) :=
  [("RAX".toList, ctx.Rax), ("RBX".toList, ctx.Rbx), ("RCX".toList, ctx.Rcx),
   ("RDX".toList, ctx.Rdx), ("R8".toList, ctx.R8), ("R9".toList, ctx.R9),
   ("R10".toList, ctx.R10), ("R11".toList, ctx.R11), ("R12".toList, ctx.R12),
   ("R13".toList, ctx.R13), ("R14".toList, ctx.R14), ("R15".toList, ctx.R15),
   ("RSI".toList, ctx.Rsi), ("RDI".toList, ctx.Rdi), ("RBP".toList, ctx.Rbp),
   ("RSP".toList, ctx.Rsp), ("RIP".toList, ctx.Rip)]

/-- One register line (each of veh.cpp 148-165). -/
def log_register (env : Env) (acc : wstring × List Event) (r : wstring × Nat) :
    wstring × List Event :=
  let resolved := to_address_string env r.2 true
  (acc.1 ++ "\n  ".toList ++ r.1 ++ ":\t".toList ++ resolved.1, acc.2 ++ resolved.2)

/-- One iteration of the stack loop (veh.cpp 175): the slot is loaded directly, so an
inaccessible slot faults (`none`). -/
def log_stack_slot (env : Env) (Rsp : Nat) (acc : wstring × List Event) (i : Nat) :
    Option (wstring × List Event) :=
  let slot := (Rsp + (i * 8) % 2 ^ 64) % 2 ^ 64
  match env.load slot with
  | none => none
  | some value =>
    let resolved := to_address_string env value true
    some (acc.1 ++ "\n  [RSP+".toList ++ fmtX ((i * 8) % 2 ^ 64) ++ "]\t".toList ++ resolved.1,
      acc.2 ++ [Event.load slot] ++ resolved.2)

/-- The call-stack part of `print_exception_info` (veh.cpp 119-142). -/
def print_call_stack (env : Env) (fuel : Nat) (ex : EXCEPTION_POINTERS) (log : wstring) :
    Option WalkState :=
  let sf : STACKFRAME64 :=
    { env.sf_uninit with
      AddrPC := ex.ContextRecord.Rip
      AddrStack := ex.ContextRecord.Rsp
      AddrFrame := ex.ContextRecord.Rbp }
  let w0 : WalkState :=
    { sf := sf, ctx := ex.ContextRecord, frame_index := 0,
      log := log ++ "\nCall Stack\n\x7b".toList, trace := [] }
  match stack_walk env fuel (log_frame env w0 sf ex.ContextRecord) with
  | none => none
  | some w => some { w with log := w.log ++ "\n\x7d".toList ++ "\n".toList }

/-- The registers part of `print_exception_info` (veh.cpp 144-167). -/
def print_registers (env : Env) (ex : EXCEPTION_POINTERS) (acc : wstring × List Event) :
    wstring × List Event :=
  let ctx := ex.ContextRecord
  let r := (register_lines ctx).foldl (log_register env)
    (acc.1 ++ "\nRegisters\n\x7b".toList, acc.2)
  (r.1 ++ "\n\x7d".toList ++ "\n".toList, r.2)

/-- The report writer `print_exception_info` (veh.cpp 117-178): the contents of the log
stream, which holds `log` on entry, and the memory accesses made. -/
def print_exception_info (env : Env) (fuel : Nat) (ex : EXCEPTION_POINTERS) (log : wstring) :
    Outcome (wstring × List Event) :=
  match print_call_stack env fuel ex log with
  | none => Outcome.running
  | some w =>
    let ctx := ex.ContextRecord
    let regs := print_registers env ex (w.log, w.trace)
    if ctx.Rsp ≤ 0x10000 ∨ ctx.Rsp ≥ 0x7FFFFFFE0000 then Outcome.returned regs
    else
      match (List.range 16).foldlM (log_stack_slot env ctx.Rsp)
          (regs.1 ++ "\nStack\n\x7b".toList, regs.2) with
      | none => Outcome.faulted
      | some r => Outcome.returned (r.1 ++ "\n\x7d".toList ++ "\n".toList, r.2)

/-! ## The handler -/

/-- The globals of veh.cpp, the operating system's chain of registered vectored handlers,
and the actions performed so far. -/
structure State where
  g_veh_message_open : Bool
  g_veh_handle : Nat
  veh_chain : List Nat
  trace : List Event
deriving DecidableEq

/-- The text of the alert (veh.cpp 227-236). -/
def alert_text (dmp_path log_path : wstring) : wstring :=
  "An error within the game has occurred and Dalamud has caught it.\n\n".toList
  ++ "This could be caused by a faulty plugin.\n".toList
  ++ "Please report this issue on our Discord - ".toList
  ++ "more information has been recorded separately.\n\n".toList
  ++ "The crash dump file is located at:\n".toList
  ++ dmp_path ++ "\n\n".toList
  ++ "The log file is located at:\n".toList
  ++ log_path ++ "\n\n".toList
  ++ "Press OK to exit the application.".toList

/-- The handler `exception_handler` (veh.cpp 183-244). With the flag set it enters the loop
`for (;;) Sleep(1)`, which has no exit: it is still running after every budget. -/
def exception_handler (env : Env) (fuel : Nat) (st : State) (ex : EXCEPTION_POINTERS) :
    Outcome (State × Int) :=
  if st.g_veh_message_open then Outcome.running
  else if !is_whitelist_exception env.nt ex.ExceptionRecord.ExceptionCode then
    Outcome.returned (st, EXCEPTION_CONTINUE_SEARCH)
  else if !is_ffxiv_address env ex.ContextRecord.Rip then
    Outcome.returned (st, EXCEPTION_CONTINUE_SEARCH)
  else
    let module_path : wstring :=
      match get_module_file_and_base env env.exception_handler_address with
      | some (_, path) => path
      | none => []
    let dmp_name : wstring :=
      if env.NDEBUG then "dalamud_appcrash.dmp".toList else "dalamud_appcrashd.dmp".toList
    let module_path := env.replace_filename module_path dmp_name
    let dmp_path := module_path
    let module_path := env.replace_filename module_path "dalamud_appcrash.log".toList
    let log_path := module_path
    let at_rip := to_address_string env ex.ContextRecord.Rip false
    let log : wstring :=
      "Unhandled native exception occurred at ".toList ++ at_rip.1 ++ "\n".toList
      ++ "Code: ".toList ++ fmtX ex.ExceptionRecord.ExceptionCode ++ "\n".toList
      ++ "Time: ".toList ++ env.zoned_time ++ "\n".toList
    match print_exception_info env.refreshed fuel ex log with
    | Outcome.running => Outcome.running
    | Outcome.faulted => Outcome.faulted
    | Outcome.returned (log, reads) =>
      let trace := st.trace ++ [Event.log_open log_path] ++ at_rip.2
        ++ [Event.SymRefreshModuleList] ++ reads ++ [Event.log_close log_path log]
        ++ [Event.CreateFileW dmp_path,
            Event.MiniDumpWriteDump dmp_path env.GetCurrentThreadId ex,
            Event.CloseHandle dmp_path]
      let formatted := alert_text dmp_path log_path
      let st1 : State := { st with trace := trace, g_veh_message_open := true }
      let st2 : State :=
        { st1 with trace := st1.trace ++ [Event.MessageBoxW formatted "Dalamud Error".toList] }
      let st3 : State := { st2 with g_veh_message_open := false }
      Outcome.returned (st3, EXCEPTION_CONTINUE_SEARCH)

/-- Where a thread stands in the guard at the head of `exception_handler` (veh.cpp 186-187). -/
inductive Guard where
  /-- About to test g_veh_message_open (veh.cpp 186). -/
  | testing
  /-- Inside `for (;;) Sleep(1)` (veh.cpp 187). -/
  | sleeping
  /-- Past the guard, about to classify the fault (veh.cpp 189). -/
  | classifying
deriving DecidableEq

/-- One step of a thread in the guard, given the value the shared flag has at that moment.
The loop of veh.cpp 187 has no condition and no break, so a sleeping thread goes back
to sleep whatever the flag holds. -/
def guard_step (g_veh_message_open : Bool) : Guard → Guard
  | Guard.testing => if g_veh_message_open then Guard.sleeping else Guard.classifying
  | Guard.sleeping => Guard.sleeping
  | Guard.classifying => Guard.classifying

/-- The guard after `n` steps of the thread, when the other threads make the flag hold
`flag t` at the time of step `t`. -/
def guard_run (flag : Nat → Bool) : Nat → Guard
  | 0 => Guard.testing
  | n + 1 => guard_step (flag n) (guard_run flag n)

/-! ## Installing and removing the handler -/

/-- The operation `veh::add_handler` (veh.cpp 249-257). `registered` is what
AddVectoredExceptionHandler returns: the new handle, which the system has then put on its
chain, or 0 when it registered nothing. -/
def add_handler (registered : Nat) (st : State) : Bool × State :=
  if st.g_veh_handle ≠ 0 then (false, st)
  else
    let st1 : State :=
      { st with
        g_veh_handle := registered
        veh_chain := if registered ≠ 0 then st.veh_chain ++ [registered] else st.veh_chain }
    let st2 : State := { st1 with trace := st1.trace ++ [Event.SymInitializeW] }
    (decide (st2.g_veh_handle ≠ 0), st2)

/-- The operation `veh::remove_handler` (veh.cpp 259-267). `removed` is what
RemoveVectoredExceptionHandler returns: non-zero when the system took the handle off its
chain, 0 when it did nothing. The call is only made when a handle is stored. -/
def remove_handler (removed : Nat) (st : State) : Bool × State :=
  if st.g_veh_handle ≠ 0 ∧ removed ≠ 0 then
    (true, { st with g_veh_handle := 0, veh_chain := st.veh_chain.erase st.g_veh_handle })
  else (false, st)

/-! ## Auxiliary notions for the statements -/

/-- The test of veh.cpp 101: whether the resolver reads memory at `address`. -/
def reads_memory (address : Nat) (try_ptrderef : Bool) : Bool :=
  try_ptrderef && decide (address > 0x10000) && decide (address < 0x7FFFFFFE0000)

/-- The local `value` of the resolver after veh.cpp 100-104. -/
def pointee (env : Env) (address : Nat) (try_ptrderef : Bool) : Nat :=
  if reads_memory address try_ptrderef then env.ReadProcessMemory address else 0

/-- The local `addr_str` of the resolver (veh.cpp 106-108). -/
def addr_str (env : Env) (address : Nat) : wstring :=
  match get_module_file_and_base env address with
  | some (module_base, module_path) =>
    env.filename module_path ++ "+".toList ++ fmtX ((address + 2 ^ 64 - module_base) % 2 ^ 64)
  | none => fmtX address

/-- The text of the resolver when it does not follow the pointer (veh.cpp 106-112, and
`addr_str` alone when no symbol is found). -/
def resolve_shallow (env : Env) (address : Nat) : wstring :=
  match get_sym_from_addr env address with
  | some (displacement, symbol) =>
    addr_str env address ++ "\t(".toList
      ++ (if displacement ≠ 0 then symbol ++ "+0x".toList ++ fmtX displacement else symbol)
      ++ ")".toList
  | none => addr_str env address

/-- The resolver written without recursion: text and actions of a call, the nested call
being `resolve_shallow`. It is shown equal to `to_address_string`. -/
def resolve_flat (env : Env) (address : Nat) (try_ptrderef : Bool) : wstring × List Event :=
  let events : List Event :=
    if reads_memory address try_ptrderef then [Event.ReadProcessMemory address] else []
  match get_sym_from_addr env address with
  | some _ => (resolve_shallow env address, events)
  | none =>
    if pointee env address try_ptrderef ≠ 0 then
      (addr_str env address ++ " [".toList
        ++ resolve_shallow env (pointee env address try_ptrderef) ++ "]".toList,
       events ++ [Event.to_address_string (pointee env address try_ptrderef) false])
    else (addr_str env address, events)

/-- The frame cursor after `k` successful steps of the unwinder, `none` when one of them
fails. -/
def unwind (env : Env) : Nat → STACKFRAME64 → CONTEXT → Option (STACKFRAME64 × CONTEXT)
  | 0, sf, ctx => some (sf, ctx)
  | k + 1, sf, ctx =>
    match env.StackWalk64 sf ctx with
    | none => none
    | some (sf1, ctx1) => unwind env k sf1 ctx1

/-- Step `k` of the chain (counted from 0) meets a stop condition: the unwinder fails, or the
frame it yields has a zero return address or a return address equal to its own address. -/
def stops_at (env : Env) (sf : STACKFRAME64) (ctx : CONTEXT) (k : Nat) : Bool :=
  match unwind env (k + 1) sf ctx with
  | none => true
  | some (sf1, _) => decide (sf1.AddrReturn = 0) || decide (sf1.AddrPC = sf1.AddrReturn)

/-- One entry of the Stack section as the specification describes it: the label of the slot
at `Rsp + 8 * i` and the resolution, dereference enabled, of the quad-word read there. -/
def stack_entry (env : Env) (Rsp i : Nat) : wstring :=
  "\n  [RSP+".toList ++ fmtX (8 * i) ++ "]\t".toList
    ++ (to_address_string env ((env.load (Rsp + 8 * i)).getD 0) true).1

/-- The Stack section as the specification describes it: the heading, sixteen entries for the
slots at `Rsp`, `Rsp + 8`, ..., `Rsp + 0x78` in this order, and the closing brace. -/
def stack_section_of_spec (env : Env) (Rsp : Nat) : wstring :=
  "\nStack\n\x7b".toList ++ (List.range 16).flatMap (stack_entry env Rsp) ++ "\n\x7d\n".toList

/-- The actions of one entry of the Stack section: the load of the slot, then the actions of
the resolver. -/
def stack_entry_events (env : Env) (Rsp i : Nat) : List Event :=
  Event.load (Rsp + 8 * i)
    :: (to_address_string env ((env.load (Rsp + 8 * i)).getD 0) true).2

/-- Whether an event is a nested call of the resolver. -/
def Event.is_nested_call : Event → Bool
  | Event.to_address_string _ _ => true
  | _ => false

/-- Whether an event is a direct load of a stack slot. -/
def Event.is_load : Event → Bool
  | Event.load _ => true
  | _ => false

/-! ## Sample environments -/

/-- A sample process: the game image at 0x140000000 and the boot image at 0x180000000, one
symbol, a pointer at 0x20000, a pointer to itself at 0x30000, a readable stack at
0x50000 and an unwinder that finds one caller frame. -/
def demo : Env where
  nt := winnt
  NDEBUG := true
  exception_handler_address := 0x180001000
  sf_uninit := { AddrPC := 0, AddrReturn := 0, AddrFrame := 0, AddrStack := 0, other := 0 }
  GetModuleHandleExA := fun a =>
    if 0x140000000 ≤ a ∧ a < 0x140100000 then some 0x140000000
    else if 0x180000000 ≤ a ∧ a < 0x180010000 then some 0x180000000
    else none
  GetModuleFileNameW := fun h =>
    if h = 0x140000000 then "C:\\game\\ffxiv_dx11.exe".toList
    else if h = 0x180000000 then "C:\\dalamud\\Dalamud.Boot.dll".toList
    else []
  SymFromAddrW := fun a => if a = 0x140001234 then some (0x34, "WinMain".toList) else none
  SymFromAddrW_refreshed := fun a =>
    if a = 0x140001234 then some (0x34, "WinMain".toList) else none
  ReadProcessMemory := fun a =>
    if a = 0x20000 then 0x140002000 else if a = 0x30000 then 0x30000 else 0
  load := fun a =>
    if 0x50000 ≤ a ∧ a < 0x60000 then some (if a = 0x50008 then 0x140001234 else 0) else none
  StackWalk64 := fun sf ctx =>
    if sf.AddrPC = 0x140001234 then some ({ sf with AddrPC := 0x140005678, AddrReturn := 0 }, ctx)
    else none
  filename := fun p => (p.reverse.takeWhile (fun c => c != '\\')).reverse
  replace_filename := fun p f => (p.reverse.dropWhile (fun c => c != '\\')).reverse ++ f
  wcsicmp := fun a b => if a.map Char.toLower = b.map Char.toLower then 0 else 1
  zoned_time := "2024-01-01 00:00:00 UTC".toList
  GetCurrentThreadId := 4242

/-- The sample process with a frame chain that is a cycle of two frames: the frame at
0x140001000 returns to 0x140002000, whose frame returns to 0x140001000. -/
def demo_cycle : Env :=
  { demo with
    StackWalk64 := fun sf ctx =>
      if sf.AddrPC = 0x140001000 then
        some ({ sf with AddrPC := 0x140002000, AddrReturn := 0x140001000 }, ctx)
      else some ({ sf with AddrPC := 0x140001000, AddrReturn := 0x140002000 }, ctx) }

/-- A register snapshot: every register 0 but the stack pointer and instruction pointer. -/
def demo_context (Rsp Rip : Nat) : CONTEXT :=
  { Rax := 0, Rbx := 0, Rcx := 0, Rdx := 0, R8 := 0, R9 := 0, R10 := 0, R11 := 0, R12 := 0,
    R13 := 0, R14 := 0, R15 := 0, Rsi := 0, Rdi := 0, Rbp := 0, Rsp := Rsp, Rip := Rip }

/-- A fault event with the given code, stack pointer and instruction pointer. -/
def demo_fault (code Rsp Rip : Nat) : EXCEPTION_POINTERS :=
  { ExceptionRecord := { ExceptionCode := code }, ContextRecord := demo_context Rsp Rip }

/-- The locals of the walk in the sample process for a fault at 0x140001234, after the
first frame line. -/
def demo_walk : WalkState :=
  { sf := { AddrPC := 0x140001234, AddrReturn := 0, AddrFrame := 0, AddrStack := 0x50000,
            other := 0 },
    ctx := demo_context 0x50000 0x140001234, frame_index := 1, log := [], trace := [] }

/-- The report of the sample process for an access violation at 0x140001234 with the stack
pointer at 0x50000, and the memory accesses made while writing it. -/
def demo_report : wstring × List Event :=
  ("\nCall Stack\n\x7b\n  [0]\tffxiv_dx11.exe+1234\t(WinMain+0x34)".toList
    ++ "\n  [1]\tffxiv_dx11.exe+5678\n\x7d\n\nRegisters\n\x7b\n  RAX:\t0".toList
    ++ "\n  RBX:\t0\n  RCX:\t0\n  RDX:\t0\n  R8:\t0\n  R9:\t0\n  R10:\t0".toList
    ++ "\n  R11:\t0\n  R12:\t0\n  R13:\t0\n  R14:\t0\n  R15:\t0\n  RSI:\t0".toList
    ++ "\n  RDI:\t0\n  RBP:\t0\n  RSP:\t50000".toList
    ++ "\n  RIP:\tffxiv_dx11.exe+1234\t(WinMain+0x34)\n\x7d\n\nStack\n\x7b".toList
    ++ "\n  [RSP+0]\t0\n  [RSP+8]\tffxiv_dx11.exe+1234\t(WinMain+0x34)".toList
    ++ "\n  [RSP+10]\t0\n  [RSP+18]\t0\n  [RSP+20]\t0\n  [RSP+28]\t0".toList
    ++ "\n  [RSP+30]\t0\n  [RSP+38]\t0\n  [RSP+40]\t0\n  [RSP+48]\t0".toList
    ++ "\n  [RSP+50]\t0\n  [RSP+58]\t0\n  [RSP+60]\t0\n  [RSP+68]\t0".toList
    ++ "\n  [RSP+70]\t0\n  [RSP+78]\t0\n\x7d\n".toList,
   [Event.ReadProcessMemory 0x50000, Event.ReadProcessMemory 0x140001234,
    Event.load 0x50000, Event.load 0x50008, Event.ReadProcessMemory 0x140001234,
    Event.load 0x50010, Event.load 0x50018, Event.load 0x50020, Event.load 0x50028,
    Event.load 0x50030, Event.load 0x50038, Event.load 0x50040, Event.load 0x50048,
    Event.load 0x50050, Event.load 0x50058, Event.load 0x50060, Event.load 0x50068,
    Event.load 0x50070, Event.load 0x50078])

/-- The log of the sample process for an access violation at 0x140001234 with a zero stack
pointer. -/
def demo_log : wstring :=
  "Unhandled native exception occurred at ffxiv_dx11.exe+1234\t(WinMain+0x34)\n".toList
  ++ "Code: C0000005\nTime: 2024-01-01 00:00:00 UTC\n\nCall Stack\n\x7b".toList
  ++ "\n  [0]\tffxiv_dx11.exe+1234\t(WinMain+0x34)\n  [1]\tffxiv_dx11.exe+5678".toList
  ++ "\n\x7d\n\nRegisters\n\x7b\n  RAX:\t0\n  RBX:\t0\n  RCX:\t0\n  RDX:\t0".toList
  ++ "\n  R8:\t0\n  R9:\t0\n  R10:\t0\n  R11:\t0\n  R12:\t0\n  R13:\t0".toList
  ++ "\n  R14:\t0\n  R15:\t0\n  RSI:\t0\n  RDI:\t0\n  RBP:\t0\n  RSP:\t0".toList
  ++ "\n  RIP:\tffxiv_dx11.exe+1234\t(WinMain+0x34)\n\x7d\n".toList

/-- The state of the sample process after the handler has reported that fault. -/
def demo_reported : State :=
  { g_veh_message_open := false, g_veh_handle := 0, veh_chain := [],
    trace :=
      [Event.log_open "C:\\dalamud\\dalamud_appcrash.log".toList,
       Event.SymRefreshModuleList,
       Event.ReadProcessMemory 0x140001234,
       Event.log_close "C:\\dalamud\\dalamud_appcrash.log".toList demo_log,
       Event.CreateFileW "C:\\dalamud\\dalamud_appcrash.dmp".toList,
       Event.MiniDumpWriteDump "C:\\dalamud\\dalamud_appcrash.dmp".toList 4242
         (demo_fault 0xC0000005 0 0x140001234),
       Event.CloseHandle "C:\\dalamud\\dalamud_appcrash.dmp".toList,
       Event.MessageBoxW
         (alert_text "C:\\dalamud\\dalamud_appcrash.dmp".toList
           "C:\\dalamud\\dalamud_appcrash.log".toList)
         "Dalamud Error".toList] }

/-- The state before any handler was installed. -/
def never_installed : State :=
  { g_veh_message_open := false, g_veh_handle := 0, veh_chain := [], trace := [] }

/-! ## The classifier -/

/-- C1: a code is whitelisted exactly when it is one of the thirty-two status codes the
specification enumerates, whatever values the status macros have; with the values of the
Windows headers the breakpoint code 0x80000003 and the C++ exception code 0xE06D7363 are
not whitelisted. -/
theorem is_whitelist_exception_iff :
    (∀ (nt : NtStatus) (code : Nat),
      is_whitelist_exception nt code = true ↔ code ∈ whitelist_of_spec nt)
    ∧ (∀ nt : NtStatus, (whitelist_of_spec nt).length = 32)
    ∧ is_whitelist_exception winnt STATUS_BREAKPOINT = false
    ∧ is_whitelist_exception winnt CPP_EXCEPTION_CODE = false := by
  refine ⟨?_, ?_, by decide, by decide⟩
  · intro nt code
    simp only [is_whitelist_exception, whitelist_of_spec, List.mem_cons, List.mem_singleton,
      List.mem_nil_iff, or_false, Bool.if_true_left, Bool.or_eq_true, decide_eq_true_eq,
      Bool.if_false_right, Bool.and_true]
    simp only [or_comm, or_left_comm, or_assoc]
  · intro nt
    rfl

/-! ## The resolver -/

/-- One unfolding of the resolver, in terms of the locals of the source. -/
theorem to_address_string_unfold (env : Env) (a : Nat) (flag : Bool) :
    to_address_string env a flag =
      match get_sym_from_addr env a with
      | some (displacement, symbol) =>
        (addr_str env a ++ "\t(".toList
          ++ (if displacement ≠ 0 then symbol ++ "+0x".toList ++ fmtX displacement else symbol)
          ++ ")".toList,
          if reads_memory a flag then [Event.ReadProcessMemory a] else [])
      | none =>
        if pointee env a flag ≠ 0 then
          (addr_str env a ++ " [".toList
            ++ (to_address_string env (pointee env a flag) false).1 ++ "]".toList,
           (if reads_memory a flag then [Event.ReadProcessMemory a] else [])
            ++ [Event.to_address_string (pointee env a flag) false]
            ++ (to_address_string env (pointee env a flag) false).2)
        else (addr_str env a, if reads_memory a flag then [Event.ReadProcessMemory a] else []) := by
  rw [to_address_string]
  simp only [pointee, reads_memory, addr_str]
  cases get_sym_from_addr env a with
  | none => simp only []; split <;> rfl
  | some p => rfl

theorem reads_memory_false (a : Nat) : reads_memory a false = false := rfl

theorem pointee_false (env : Env) (a : Nat) : pointee env a false = 0 := rfl

theorem reads_memory_iff (a : Nat) (flag : Bool) :
    reads_memory a flag = true ↔ flag = true ∧ 0x10000 < a ∧ a < 0x7FFFFFFE0000 := by
  simp [reads_memory, and_assoc]

/-- With dereference disabled the resolver performs no action at all. -/
theorem to_address_string_false_trace (env : Env) (a : Nat) :
    (to_address_string env a false).2 = [] := by
  rw [to_address_string_unfold]
  cases get_sym_from_addr env a with
  | none => simp [pointee_false, reads_memory_false]
  | some p => simp [reads_memory_false]

/-- The actions of the resolver: the read at `a` when the test of veh.cpp 101 passes, then
the nested call when no symbol was found and the value read is not zero. -/
theorem to_address_string_trace (env : Env) (a : Nat) (flag : Bool) :
    (to_address_string env a flag).2 =
      (if reads_memory a flag then [Event.ReadProcessMemory a] else [])
      ++ (if get_sym_from_addr env a = none ∧ pointee env a flag ≠ 0 then
            [Event.to_address_string (pointee env a flag) false] else []) := by
  rw [to_address_string_unfold]
  cases h : get_sym_from_addr env a with
  | none =>
    by_cases hv : pointee env a flag = 0
    · simp [hv]
    · simp [hv, to_address_string_false_trace]
  | some p => simp

/-- The text of the resolver starts with `addr_str`. -/
theorem addr_str_leads (env : Env) (a : Nat) (flag : Bool) :
    addr_str env a <+: (to_address_string env a flag).1 := by
  rw [to_address_string_unfold]
  cases get_sym_from_addr env a with
  | none =>
    by_cases hv : pointee env a flag = 0
    · simp [hv]
    · simp only [hv, ne_eq, not_false_eq_true, if_true, List.append_assoc]
      exact List.prefix_append _ _
  | some p =>
    simp only [List.append_assoc]
    exact List.prefix_append _ _

/-! ### Hexadecimal rendering -/

theorem hexValue_hexDigit (d : Nat) (h : d < 16) : hexValue (hexDigit d) = some d := by
  interval_cases d <;> decide

theorem hexDigit_mem (d : Nat) (h : d < 16) : hexDigit d ∈ "0123456789ABCDEF".toList := by
  interval_cases d <;> decide

theorem hexDigit_ne_zero (d : Nat) (h : d < 16) (h0 : d ≠ 0) : hexDigit d ≠ '0' := by
  interval_cases d <;> first | exact absurd rfl h0 | decide

theorem hexRev_value (fuel : Nat) : ∀ n, n ≤ fuel →
    (hexRev fuel n).foldr
      (fun c acc => acc.bind (fun a => (hexValue c).map (fun d => 16 * a + d))) (some 0)
      = some n := by
  induction fuel with
  | zero => intro n hn; simp [hexRev, Nat.le_zero.mp hn]
  | succ fuel ih =>
    intro n hn
    by_cases h0 : n = 0
    · simp [hexRev, h0]
    · have hlt : n / 16 ≤ fuel := by omega
      simp only [hexRev, h0, if_false, List.foldr_cons, ih _ hlt, Option.some_bind,
        hexValue_hexDigit _ (Nat.mod_lt n (by decide)), Option.map_some']
      congr 1
      omega

theorem hexRev_mem (fuel : Nat) :
    ∀ n, ∀ c ∈ hexRev fuel n, c ∈ "0123456789ABCDEF".toList := by
  induction fuel with
  | zero => intro n c hc; simp [hexRev] at hc
  | succ fuel ih =>
    intro n c hc
    by_cases h0 : n = 0
    · simp [hexRev, h0] at hc
    · simp only [hexRev, h0, if_false, List.mem_cons] at hc
      rcases hc with rfl | hc
      · exact hexDigit_mem _ (Nat.mod_lt n (by decide))
      · exact ih _ _ hc

theorem hexRev_getLast (fuel : Nat) :
    ∀ n, n ≤ fuel → ∀ c, (hexRev fuel n).getLast? = some c → c ≠ '0' := by
  induction fuel with
  | zero => intro n _ c hc; simp [hexRev] at hc
  | succ fuel ih =>
    intro n hn c hc
    by_cases h0 : n = 0
    · simp [hexRev, h0] at hc
    · simp only [hexRev, h0, if_false] at hc
      by_cases h1 : n / 16 = 0
      · have hnil : hexRev fuel (n / 16) = [] := by
          rw [h1]; cases fuel <;> simp [hexRev]
        rw [hnil] at hc
        simp only [List.getLast?_singleton, Option.some.injEq] at hc
        rw [← hc]
        exact hexDigit_ne_zero _ (Nat.mod_lt n (by decide)) (by omega)
      · have hne : hexRev fuel (n / 16) ≠ [] := by
          cases fuel with
          | zero => omega
          | succ f => simp [hexRev, h1]
        obtain ⟨x, xs, hx⟩ := List.exists_cons_of_ne_nil hne
        rw [hx, List.getLast?_cons_cons, ← hx] at hc
        exact ih _ (by omega) c hc

/-- The rendering `fmtX` is the upper-case hexadecimal numeral of its argument: it reads
back as the number, uses only the digits 0-9 and A-F, and has no leading zero. -/
theorem fmtX_spec (n : Nat) :
    parseHex (fmtX n) = some n
    ∧ (∀ c ∈ fmtX n, c ∈ "0123456789ABCDEF".toList)
    ∧ (n ≠ 0 → (fmtX n).head? ≠ some '0') := by
  by_cases h0 : n = 0
  · subst h0
    refine ⟨by decide, by decide, fun h => absurd rfl h⟩
  · refine ⟨?_, ?_, ?_⟩
    · simp only [parseHex, fmtX, h0, if_false, List.foldl_reverse]
      exact hexRev_value n n (le_refl n)
    · intro c hc
      simp only [fmtX, h0, if_false, List.mem_reverse] at hc
      exact hexRev_mem n n c hc
    · intro _ hc
      simp only [fmtX, h0, if_false, List.head?_reverse] at hc
      exact hexRev_getLast n n (le_refl n) _ hc rfl

/-! ### Properties of the resolver -/

theorem to_address_string_false (env : Env) (a : Nat) :
    to_address_string env a false = (resolve_shallow env a, []) := by
  rw [to_address_string_unfold]
  unfold resolve_shallow
  cases get_sym_from_addr env a with
  | none => simp [pointee_false, reads_memory_false]
  | some p => simp [reads_memory_false]

/-- The resolver equals its non-recursive form. -/
theorem to_address_string_flat (env : Env) (a : Nat) (flag : Bool) :
    to_address_string env a flag = resolve_flat env a flag := by
  rw [to_address_string_unfold]
  unfold resolve_flat
  cases h : get_sym_from_addr env a with
  | none =>
    by_cases hv : pointee env a flag = 0
    · simp [hv]
    · simp [hv, to_address_string_false]
  | some p => simp [resolve_shallow, h]

/-- C7, as the code has it: the resolver reads memory, and then only at its own argument,
exactly when dereference is enabled and the address lies strictly between 0x10000 and
0x7FFFFFFE0000, whether or not a symbol is found; outside those bounds or with dereference
disabled the list of its actions holds no read at all. -/
theorem to_address_string_reads_iff (env : Env) (a : Nat) (flag : Bool) (b : Nat) :
    Event.ReadProcessMemory b ∈ (to_address_string env a flag).2
      ↔ b = a ∧ flag = true ∧ 0x10000 < a ∧ a < 0x7FFFFFFE0000 := by
  rw [to_address_string_trace, ← reads_memory_iff]
  by_cases hr : reads_memory a flag = true
  · by_cases hs : get_sym_from_addr env a = none ∧ pointee env a flag ≠ 0
    · simp [hr, hs, eq_comm]
    · simp [hr, hs, eq_comm]
  · by_cases hs : get_sym_from_addr env a = none ∧ pointee env a flag ≠ 0
    · simp [hr, hs]
    · simp [hr, hs]

/-- C7, counterexample: the sentence of the specification fails twice in the sample
process. At the lower bound 0x10000, with no symbol and dereference enabled, no read is
made; and at 0x140001234, where a symbol is found, the read is made all the same. -/
theorem to_address_string_reads_counterexample :
    ¬ (Event.ReadProcessMemory 0x10000 ∈ (to_address_string demo 0x10000 true).2
        ↔ get_sym_from_addr demo 0x10000 = none ∧ true = true
          ∧ 0x10000 ≤ 0x10000 ∧ 0x10000 < 0x7FFFFFFE0000)
    ∧ ¬ (Event.ReadProcessMemory 0x140001234 ∈ (to_address_string demo 0x140001234 true).2
        ↔ get_sym_from_addr demo 0x140001234 = none ∧ true = true
          ∧ 0x10000 ≤ 0x140001234 ∧ 0x140001234 < 0x7FFFFFFE0000) := by
  rw [to_address_string_flat, to_address_string_flat]
  decide

/-- C8: the resolver is a total function whose recursion stops after one level: among the
actions of a call there is at most one nested call, every nested call has dereference
disabled, and a call with dereference disabled performs no action, neither a read nor a
nested call. -/
theorem to_address_string_one_level (env : Env) (a : Nat) (flag : Bool) :
    ((to_address_string env a flag).2.filter Event.is_nested_call).length ≤ 1
    ∧ (∀ b f, Event.to_address_string b f ∈ (to_address_string env a flag).2 → f = false)
    ∧ (∀ b, (to_address_string env b false).2 = []) := by
  refine ⟨?_, ?_, fun b => to_address_string_false_trace env b⟩
  · rw [to_address_string_trace]
    by_cases hr : reads_memory a flag = true <;>
      by_cases hs : get_sym_from_addr env a = none ∧ pointee env a flag ≠ 0 <;>
      simp [hr, hs, Event.is_nested_call]
  · intro b f
    rw [to_address_string_trace]
    by_cases hr : reads_memory a flag = true <;>
      by_cases hs : get_sym_from_addr env a = none ∧ pointee env a flag ≠ 0 <;>
      simp [hr, hs]

/-- A pointer that points to itself is followed once: the sample process holds one at
0x30000. -/
theorem to_address_string_self_pointer :
    demo.ReadProcessMemory 0x30000 = 0x30000
    ∧ to_address_string demo 0x30000 true
      = ("30000 [30000]".toList,
         [Event.ReadProcessMemory 0x30000, Event.to_address_string 0x30000 false]) := by
  rw [to_address_string_flat]
  decide

/-- C9: the text of the resolver starts with the module part of the address. Inside a module
with base `b` and file `p` that part is the file name of `p`, a plus sign and the
hexadecimal rendering of `a - b`; in no module it is the hexadecimal rendering of `a`,
which is the whole text when no symbol is found and no non-zero value was read. The
rendering is the upper-case hexadecimal numeral, without prefix or padding. -/
theorem to_address_string_module_part (env : Env) (a : Nat) (flag : Bool) :
    (∀ b p, get_module_file_and_base env a = some (b, p) → b ≤ a → a < 2 ^ 64 →
        (env.filename p ++ "+".toList ++ fmtX (a - b)) <+: (to_address_string env a flag).1)
    ∧ (get_module_file_and_base env a = none →
        fmtX a <+: (to_address_string env a flag).1
        ∧ (get_sym_from_addr env a = none → pointee env a flag = 0 →
            (to_address_string env a flag).1 = fmtX a))
    ∧ (∀ n, parseHex (fmtX n) = some n
        ∧ (∀ c ∈ fmtX n, c ∈ "0123456789ABCDEF".toList)
        ∧ (n ≠ 0 → (fmtX n).head? ≠ some '0')) := by
  refine ⟨?_, ?_, fmtX_spec⟩
  · intro b p hm hb ha
    have h := addr_str_leads env a flag
    have hsub : (a + 2 ^ 64 - b) % 2 ^ 64 = a - b := by omega
    simpa only [addr_str, hm, hsub] using h
  · intro hm
    have h := addr_str_leads env a flag
    simp only [addr_str, hm] at h
    refine ⟨h, fun hs hv => ?_⟩
    rw [to_address_string_flat]
    simp [resolve_flat, hs, hv, addr_str, hm]

/-- C9 in the sample process: an address inside the game image, an address in no module
with a pointee, and an address in no module without one. -/
theorem to_address_string_module_part_witness :
    ("ffxiv_dx11.exe+1234".toList <+: (to_address_string demo 0x140001234 true).1)
    ∧ ("20000".toList <+: (to_address_string demo 0x20000 true).1)
    ∧ (to_address_string demo 0x10000 true).1 = "10000".toList := by
  have h1 := (to_address_string_module_part demo 0x140001234 true).1 0x140000000
    "C:\\game\\ffxiv_dx11.exe".toList (by decide) (by decide) (by decide)
  have h2 := ((to_address_string_module_part demo 0x20000 true).2.1 (by decide)).1
  have h3 := ((to_address_string_module_part demo 0x10000 true).2.1 (by decide)).2
    (by decide) (by decide)
  refine ⟨?_, ?_, ?_⟩
  · have e : demo.filename "C:\\game\\ffxiv_dx11.exe".toList ++ "+".toList
        ++ fmtX (0x140001234 - 0x140000000) = "ffxiv_dx11.exe+1234".toList := by decide
    rw [e] at h1
    exact h1
  · have e : fmtX 0x20000 = "20000".toList := by decide
    rw [e] at h2
    exact h2
  · have e : fmtX 0x10000 = "10000".toList := by decide
    rw [e] at h3
    exact h3

/-! ## The stack walk -/

theorem walk_continues_eq (sf : STACKFRAME64) :
    walk_continues sf = !(decide (sf.AddrReturn = 0) || decide (sf.AddrPC = sf.AddrReturn)) := by
  simp [walk_continues]

theorem stops_at_zero (env : Env) (sf : STACKFRAME64) (ctx : CONTEXT) :
    stops_at env sf ctx 0 =
      match env.StackWalk64 sf ctx with
      | none => true
      | some (sf1, _) => !walk_continues sf1 := by
  unfold stops_at unwind
  cases h : env.StackWalk64 sf ctx with
  | none => rfl
  | some c => simp [unwind, walk_continues_eq]

theorem stops_at_succ (env : Env) (sf sf1 : STACKFRAME64) (ctx ctx1 : CONTEXT) (k : Nat)
    (h : env.StackWalk64 sf ctx = some (sf1, ctx1)) :
    stops_at env sf ctx (k + 1) = stops_at env sf1 ctx1 k := by
  unfold stops_at
  rw [unwind, h]

theorem unwind_succ (env : Env) (sf sf1 : STACKFRAME64) (ctx ctx1 : CONTEXT) (k : Nat)
    (h : env.StackWalk64 sf ctx = some (sf1, ctx1)) :
    unwind env (k + 1) sf ctx = unwind env k sf1 ctx1 := by
  rw [unwind, h]

/-- The walk ends at the first step that meets a stop condition: with a budget of at most `k`
iterations it is still running, with a larger one it has returned after `k + 1` calls of
the unwinder. -/
theorem stack_walk_first_stop (env : Env) : ∀ (k : Nat) (w : WalkState),
    stops_at env w.sf w.ctx k = true → (∀ j < k, stops_at env w.sf w.ctx j = false) →
    (∀ fuel, fuel ≤ k → stack_walk env fuel w = none)
    ∧ (∀ fuel, k < fuel → ∃ r, stack_walk env fuel w = some r ∧
        match unwind env (k + 1) w.sf w.ctx with
        | none => unwind env k w.sf w.ctx = some (r.sf, r.ctx)
            ∧ r.frame_index = w.frame_index + k
        | some c => c = (r.sf, r.ctx) ∧ r.frame_index = w.frame_index + (k + 1)) := by
  intro k
  induction k with
  | zero =>
    intro w hk _
    rw [stops_at_zero] at hk
    refine ⟨fun fuel hf => by rw [Nat.le_zero.mp hf]; rfl, fun fuel hf => ?_⟩
    obtain ⟨f, rfl⟩ : ∃ f, fuel = f + 1 := ⟨fuel - 1, by omega⟩
    cases h : env.StackWalk64 w.sf w.ctx with
    | none => exact ⟨w, by simp [stack_walk, h], by simp [unwind, h]⟩
    | some c =>
      obtain ⟨sf1, ctx1⟩ := c
      rw [h] at hk
      simp only [Bool.not_eq_true'] at hk
      exact ⟨log_frame env w sf1 ctx1, by simp [stack_walk, h, hk],
        by simp [unwind, h, log_frame]⟩
  | succ k ih =>
    intro w hk hmin
    have h0 := hmin 0 (Nat.succ_pos k)
    rw [stops_at_zero] at h0
    cases h : env.StackWalk64 w.sf w.ctx with
    | none => rw [h] at h0; exact absurd h0 (by decide)
    | some c =>
      obtain ⟨sf1, ctx1⟩ := c
      rw [h] at h0
      have hc : walk_continues sf1 = true := by simpa using h0
      have hk1 : stops_at env (log_frame env w sf1 ctx1).sf (log_frame env w sf1 ctx1).ctx k
          = true := by
        rw [← hk, stops_at_succ env w.sf sf1 w.ctx ctx1 k h]; rfl
      have hmin1 : ∀ j < k,
          stops_at env (log_frame env w sf1 ctx1).sf (log_frame env w sf1 ctx1).ctx j
            = false := by
        intro j hj
        rw [← hmin (j + 1) (by omega), stops_at_succ env w.sf sf1 w.ctx ctx1 j h]; rfl
      obtain ⟨ih1, ih2⟩ := ih (log_frame env w sf1 ctx1) hk1 hmin1
      refine ⟨fun fuel hf => ?_, fun fuel hf => ?_⟩
      · cases fuel with
        | zero => rfl
        | succ f =>
          simp only [stack_walk, h, hc, if_true]
          exact ih1 f (by omega)
      · obtain ⟨f, rfl⟩ : ∃ f, fuel = f + 1 := ⟨fuel - 1, by omega⟩
        obtain ⟨r, hr, hcur⟩ := ih2 f (by omega)
        refine ⟨r, by simp only [stack_walk, h, hc, if_true]; exact hr, ?_⟩
        rw [unwind_succ env w.sf sf1 w.ctx ctx1 (k + 1) h,
          unwind_succ env w.sf sf1 w.ctx ctx1 k h]
        have e1 : (log_frame env w sf1 ctx1).sf = sf1 := rfl
        have e2 : (log_frame env w sf1 ctx1).ctx = ctx1 := rfl
        have e3 : (log_frame env w sf1 ctx1).frame_index = w.frame_index + 1 := rfl
        rw [e1, e2, e3] at hcur
        cases hu : unwind env (k + 1) sf1 ctx1 with
        | none =>
          rw [hu] at hcur
          exact ⟨hcur.1, by have := hcur.2; omega⟩
        | some c =>
          rw [hu] at hcur
          exact ⟨hcur.1, by have := hcur.2; omega⟩

/-- When no step of the chain meets a stop condition the walk is still running after every
budget. -/
theorem stack_walk_never_stops (env : Env) : ∀ (fuel : Nat) (w : WalkState),
    (∀ k, stops_at env w.sf w.ctx k = false) → stack_walk env fuel w = none := by
  intro fuel
  induction fuel with
  | zero => intro w _; rfl
  | succ f ih =>
    intro w hall
    have h0 := hall 0
    rw [stops_at_zero] at h0
    cases h : env.StackWalk64 w.sf w.ctx with
    | none => rw [h] at h0; exact absurd h0 (by decide)
    | some c =>
      obtain ⟨sf1, ctx1⟩ := c
      rw [h] at h0
      have hc : walk_continues sf1 = true := by simpa using h0
      simp only [stack_walk, h, hc, if_true]
      apply ih
      intro k
      rw [← hall (k + 1), stops_at_succ env w.sf sf1 w.ctx ctx1 k h]
      rfl

/-- In the sample process with the cycle of two frames every step of the unwinder succeeds
and no frame meets a stop condition, so the walk outlasts every budget. -/
theorem stack_walk_demo_cycle : ∀ (fuel : Nat) (w : WalkState),
    stack_walk demo_cycle fuel w = none := by
  intro fuel
  induction fuel with
  | zero => intro w; rfl
  | succ f ih =>
    intro w
    by_cases hpc : w.sf.AddrPC = 0x140001000
    · have h : demo_cycle.StackWalk64 w.sf w.ctx
          = some ({ w.sf with AddrPC := 0x140002000, AddrReturn := 0x140001000 }, w.ctx) := by
        simp [demo_cycle, hpc]
      simp only [stack_walk, h]
      rw [if_pos (by simp [walk_continues])]
      exact ih _
    · have h : demo_cycle.StackWalk64 w.sf w.ctx
          = some ({ w.sf with AddrPC := 0x140001000, AddrReturn := 0x140002000 }, w.ctx) := by
        simp [demo_cycle, hpc]
      simp only [stack_walk, h]
      rw [if_pos (by simp [walk_continues])]
      exact ih _

/-- C6, as the code has it: the walk ends at the first step at which the unwinder fails, the
return address is zero or the return address equals the frame's own address. If `k` is
that step, the loop is still running after `k` iterations and has returned after
`k + 1`, at the cursor of that step; if no step of the chain meets one of the three
conditions, the loop is still running after every number of iterations. -/
theorem stack_walk_ends_at_first_stop (env : Env) (w : WalkState) :
    (∀ k, stops_at env w.sf w.ctx k = true → (∀ j < k, stops_at env w.sf w.ctx j = false) →
      (∀ fuel, fuel ≤ k → stack_walk env fuel w = none)
      ∧ (∀ fuel, k < fuel → ∃ r, stack_walk env fuel w = some r ∧
          match unwind env (k + 1) w.sf w.ctx with
          | none => unwind env k w.sf w.ctx = some (r.sf, r.ctx)
              ∧ r.frame_index = w.frame_index + k
          | some c => c = (r.sf, r.ctx) ∧ r.frame_index = w.frame_index + (k + 1)))
    ∧ ((∀ k, stops_at env w.sf w.ctx k = false) → ∀ fuel, stack_walk env fuel w = none) :=
  ⟨fun k hk hmin => stack_walk_first_stop env k w hk hmin,
   fun hall fuel => stack_walk_never_stops env fuel w hall⟩

/-- C6 in the sample process, whose chain ends in a zero return address at the first step:
the walk has not returned without an iteration and returns after one, with one more
frame recorded. -/
theorem stack_walk_ends_at_first_stop_witness :
    stops_at demo demo_walk.sf demo_walk.ctx 0 = true
    ∧ stack_walk demo 0 demo_walk = none
    ∧ ∃ r, stack_walk demo 1 demo_walk = some r ∧ r.sf.AddrPC = 0x140005678
        ∧ r.sf.AddrReturn = 0 ∧ r.frame_index = 2 := by
  have h := (stack_walk_ends_at_first_stop demo demo_walk).1 0 (by decide)
    (fun j hj => absurd hj (Nat.not_lt_zero j))
  refine ⟨by decide, h.1 0 (le_refl 0), ?_⟩
  obtain ⟨r, hr, hcur⟩ := h.2 1 (by decide)
  have hu : unwind demo (0 + 1) demo_walk.sf demo_walk.ctx
      = some ({ demo_walk.sf with AddrPC := 0x140005678, AddrReturn := 0 }, demo_walk.ctx) := by
    decide
  rw [hu] at hcur
  obtain ⟨hc, hidx⟩ := hcur
  have hsf : r.sf = { demo_walk.sf with AddrPC := 0x140005678, AddrReturn := 0 } :=
    (congrArg Prod.fst hc).symm
  exact ⟨r, hr, by rw [hsf], by rw [hsf], by rw [hidx]; rfl⟩

/-- C6, counterexample: the walk is not bounded on a cyclic chain. In the sample process
whose frame at 0x140001000 returns to 0x140002000 and back, the return addresses repeat
and the report writer is still in its stack-walk loop after every number of iterations. -/
theorem stack_walk_cycle_counterexample :
    ¬ ∃ fuel, print_exception_info demo_cycle fuel
        (demo_fault 0xC0000005 0x50000 0x140001000) [] ≠ Outcome.running := by
  rintro ⟨fuel, h⟩
  apply h
  simp [print_exception_info, print_call_stack, stack_walk_demo_cycle]

/-! ## The report -/

theorem to_address_string_no_load (env : Env) (a : Nat) (flag : Bool) :
    (to_address_string env a flag).2.filter Event.is_load = [] := by
  rw [to_address_string_trace]
  by_cases hr : reads_memory a flag = true <;>
    by_cases hs : get_sym_from_addr env a = none ∧ pointee env a flag ≠ 0 <;>
    simp [hr, hs, Event.is_load]

theorem stack_walk_no_load (env : Env) : ∀ (fuel : Nat) (w r : WalkState),
    stack_walk env fuel w = some r → w.trace.filter Event.is_load = [] →
    r.trace.filter Event.is_load = [] := by
  intro fuel
  induction fuel with
  | zero => intro w r h; simp [stack_walk] at h
  | succ f ih =>
    intro w r h hw
    cases hs : env.StackWalk64 w.sf w.ctx with
    | none =>
      simp only [stack_walk, hs, Option.some.injEq] at h
      rw [← h]; exact hw
    | some c =>
      obtain ⟨sf1, ctx1⟩ := c
      have h1 : (log_frame env w sf1 ctx1).trace.filter Event.is_load = [] := by
        simp [log_frame, List.filter_append, hw, to_address_string_no_load]
      simp only [stack_walk, hs] at h
      by_cases hc : walk_continues sf1 = true
      · rw [if_pos hc] at h
        exact ih _ _ h h1
      · rw [if_neg hc, Option.some.injEq] at h
        rw [← h]; exact h1

theorem print_call_stack_no_load (env : Env) (fuel : Nat) (ex : EXCEPTION_POINTERS)
    (log : wstring) (w : WalkState) (h : print_call_stack env fuel ex log = some w) :
    w.trace.filter Event.is_load = [] := by
  unfold print_call_stack at h
  simp only [] at h
  split at h
  · exact absurd h (by simp)
  · next r hr =>
    rw [Option.some.injEq] at h
    rw [← h]
    exact stack_walk_no_load env fuel _ r hr
      (by simp [log_frame, to_address_string_no_load])

theorem foldl_log_register_no_load (env : Env) : ∀ (rs : List (wstring × Nat))
    (acc : wstring × List Event), acc.2.filter Event.is_load = [] →
    (rs.foldl (log_register env) acc).2.filter Event.is_load = [] := by
  intro rs
  induction rs with
  | nil => intro acc h; exact h
  | cons r rs ih =>
    intro acc h
    rw [List.foldl_cons]
    apply ih
    simp [log_register, List.filter_append, h, to_address_string_no_load]

theorem print_registers_no_load (env : Env) (ex : EXCEPTION_POINTERS)
    (acc : wstring × List Event) (h : acc.2.filter Event.is_load = []) :
    (print_registers env ex acc).2.filter Event.is_load = [] := by
  have key := foldl_log_register_no_load env (register_lines ex.ContextRecord)
    (acc.1 ++ "\nRegisters\n\x7b".toList, acc.2) h
  exact key

theorem log_stack_slot_eq (env : Env) (Rsp i : Nat) (acc : wstring × List Event)
    (hR : Rsp < 0x7FFFFFFE0000) (hi : i < 16) :
    log_stack_slot env Rsp acc i =
      match env.load (Rsp + 8 * i) with
      | none => none
      | some _ => some (acc.1 ++ stack_entry env Rsp i, acc.2 ++ stack_entry_events env Rsp i) := by
  have e1 : (Rsp + 8 * i) % 2 ^ 64 = Rsp + 8 * i := by omega
  have e2 : (i * 8) % 2 ^ 64 = 8 * i := by omega
  unfold log_stack_slot stack_entry stack_entry_events
  simp only [e2, e1]
  cases env.load (Rsp + 8 * i) with
  | none => rfl
  | some v => simp

/-- The stack loop over the slots `slots`: it faults at the first slot that cannot be loaded
and otherwise appends one entry for each slot, in order. -/
theorem foldlM_log_stack_slot (env : Env) (Rsp : Nat) (hR : Rsp < 0x7FFFFFFE0000) :
    ∀ (slots : List Nat) (acc : wstring × List Event), (∀ i ∈ slots, i < 16) →
    ((∀ i ∈ slots, (env.load (Rsp + 8 * i)).isSome = true) →
      slots.foldlM (log_stack_slot env Rsp) acc
        = some (acc.1 ++ slots.flatMap (stack_entry env Rsp),
                acc.2 ++ slots.flatMap (stack_entry_events env Rsp)))
    ∧ ((∃ i ∈ slots, env.load (Rsp + 8 * i) = none) →
      slots.foldlM (log_stack_slot env Rsp) acc = none) := by
  intro slots
  induction slots with
  | nil =>
    intro acc _
    refine ⟨fun _ => by simp, fun h => ?_⟩
    obtain ⟨i, hi, _⟩ := h
    exact absurd hi (List.not_mem_nil i)
  | cons j js ih =>
    intro acc hlt
    have hj : j < 16 := hlt j (List.mem_cons_self j js)
    have hjs : ∀ i ∈ js, i < 16 := fun i hi => hlt i (List.mem_cons_of_mem j hi)
    rw [List.foldlM_cons, log_stack_slot_eq env Rsp j acc hR hj]
    cases hl : env.load (Rsp + 8 * j) with
    | none =>
      refine ⟨fun hall => ?_, fun _ => rfl⟩
      have := hall j (List.mem_cons_self j js)
      rw [hl] at this
      exact absurd this (by decide)
    | some v =>
      obtain ⟨ih1, ih2⟩ := ih (acc.1 ++ stack_entry env Rsp j,
        acc.2 ++ stack_entry_events env Rsp j) hjs
      refine ⟨fun hall => ?_, fun hex => ?_⟩
      · simp only [Option.some_bind, Option.bind_eq_bind]
        rw [ih1 (fun i hi => hall i (List.mem_cons_of_mem j hi))]
        simp [List.flatMap_cons, List.append_assoc]
      · simp only [Option.some_bind, Option.bind_eq_bind]
        apply ih2
        obtain ⟨i, hi, hnone⟩ := hex
        rcases List.mem_cons.mp hi with rfl | hi
        · rw [hl] at hnone; exact absurd hnone (by simp)
        · exact ⟨i, hi, hnone⟩

theorem stack_entry_events_loads (env : Env) (Rsp : Nat) : ∀ slots : List Nat,
    (slots.flatMap (stack_entry_events env Rsp)).filter Event.is_load
      = slots.map (fun i => Event.load (Rsp + 8 * i)) := by
  intro slots
  induction slots with
  | nil => rfl
  | cons j js ih =>
    rw [List.flatMap_cons, List.filter_append, ih]
    simp [stack_entry_events, Event.is_load, to_address_string_no_load]

/-- The three ways in which the report writer ends once the walk has returned: without a
Stack section, with a full one, or with a fault at an unreadable slot. -/
theorem print_exception_info_cases (env : Env) (fuel : Nat) (ex : EXCEPTION_POINTERS)
    (log : wstring) (w : WalkState) (hw : print_call_stack env fuel ex log = some w) :
    (ex.ContextRecord.Rsp ≤ 0x10000 ∨ ex.ContextRecord.Rsp ≥ 0x7FFFFFFE0000 →
      print_exception_info env fuel ex log
        = Outcome.returned (print_registers env ex (w.log, w.trace)))
    ∧ (0x10000 < ex.ContextRecord.Rsp → ex.ContextRecord.Rsp < 0x7FFFFFFE0000 →
        (∀ i ∈ List.range 16, (env.load (ex.ContextRecord.Rsp + 8 * i)).isSome = true) →
        print_exception_info env fuel ex log
          = Outcome.returned
              ((print_registers env ex (w.log, w.trace)).1
                ++ stack_section_of_spec env ex.ContextRecord.Rsp,
               (print_registers env ex (w.log, w.trace)).2
                ++ (List.range 16).flatMap (stack_entry_events env ex.ContextRecord.Rsp)))
    ∧ (0x10000 < ex.ContextRecord.Rsp → ex.ContextRecord.Rsp < 0x7FFFFFFE0000 →
        (∃ i ∈ List.range 16, env.load (ex.ContextRecord.Rsp + 8 * i) = none) →
        print_exception_info env fuel ex log = Outcome.faulted) := by
  have hlt : ∀ i ∈ List.range 16, i < 16 := fun i hi => List.mem_range.mp hi
  refine ⟨fun h => ?_, fun h1 h2 hall => ?_, fun h1 h2 hex => ?_⟩
  · unfold print_exception_info
    simp only [hw]
    rw [if_pos h]
  · have hn : ¬ (ex.ContextRecord.Rsp ≤ 0x10000
        ∨ ex.ContextRecord.Rsp ≥ 0x7FFFFFFE0000) := by omega
    unfold print_exception_info
    simp only [hw]
    rw [if_neg hn, (foldlM_log_stack_slot env _ h2 (List.range 16) _ hlt).1 hall]
    simp [stack_section_of_spec, List.append_assoc]
  · have hn : ¬ (ex.ContextRecord.Rsp ≤ 0x10000
        ∨ ex.ContextRecord.Rsp ≥ 0x7FFFFFFE0000) := by omega
    unfold print_exception_info
    simp only [hw]
    rw [if_neg hn, (foldlM_log_stack_slot env _ h2 (List.range 16) _ hlt).2 hex]

/-- C10: in a report that `print_exception_info` has written, what follows the Registers
section is either nothing or the Stack section. The section is present only if the stack
pointer lies in [0x10000, 0x7FFFFFFE0000); when present it is the heading, the sixteen
entries for the slots at Rsp, Rsp + 8, ..., Rsp + 0x78 in this order, labelled 0, 8, 10,
..., 78, each the resolution of the quad-word loaded from its slot, and the closing
brace, and exactly those sixteen slots were loaded; when the stack pointer is outside
the range nothing follows the Registers section and no slot was loaded. The report is
written whenever the walk has ended and, for a stack pointer strictly inside the range,
the sixteen slots can be loaded. -/
theorem stack_section_only_in_range (env : Env) (fuel : Nat) (ex : EXCEPTION_POINTERS)
    (log : wstring) :
    (∀ r, print_exception_info env fuel ex log = Outcome.returned r →
      ∃ w, print_call_stack env fuel ex log = some w ∧
        ∃ stack_section : wstring,
          r.1 = (print_registers env ex (w.log, w.trace)).1 ++ stack_section
          ∧ (stack_section ≠ [] →
              (0x10000 ≤ ex.ContextRecord.Rsp ∧ ex.ContextRecord.Rsp < 0x7FFFFFFE0000)
              ∧ stack_section = stack_section_of_spec env ex.ContextRecord.Rsp
              ∧ (∀ i, i < 16 → (env.load (ex.ContextRecord.Rsp + 8 * i)).isSome = true)
              ∧ r.2.filter Event.is_load
                  = (List.range 16).map (fun i => Event.load (ex.ContextRecord.Rsp + 8 * i)))
          ∧ (¬ (0x10000 ≤ ex.ContextRecord.Rsp ∧ ex.ContextRecord.Rsp < 0x7FFFFFFE0000) →
              stack_section = [] ∧ r.2.filter Event.is_load = []))
    ∧ (∀ w, print_call_stack env fuel ex log = some w →
        (¬ (0x10000 ≤ ex.ContextRecord.Rsp ∧ ex.ContextRecord.Rsp < 0x7FFFFFFE0000) →
          print_exception_info env fuel ex log
            = Outcome.returned (print_registers env ex (w.log, w.trace)))
        ∧ (0x10000 < ex.ContextRecord.Rsp → ex.ContextRecord.Rsp < 0x7FFFFFFE0000 →
            (∀ i, i < 16 → (env.load (ex.ContextRecord.Rsp + 8 * i)).isSome = true) →
            ∃ events, print_exception_info env fuel ex log
              = Outcome.returned
                  ((print_registers env ex (w.log, w.trace)).1
                    ++ stack_section_of_spec env ex.ContextRecord.Rsp, events)))
    ∧ (List.range 16).map (fun i => fmtX (8 * i))
        = ["0", "8", "10", "18", "20", "28", "30", "38", "40", "48", "50", "58", "60",
           "68", "70", "78"].map String.toList := by
  refine ⟨fun r h => ?_, fun w hw => ?_, by decide⟩
  · cases hw : print_call_stack env fuel ex log with
    | none => simp [print_exception_info, hw] at h
    | some w =>
      obtain ⟨c1, c2, c3⟩ := print_exception_info_cases env fuel ex log w hw
      have hregs := print_registers_no_load env ex (w.log, w.trace)
        (print_call_stack_no_load env fuel ex log w hw)
      refine ⟨w, rfl, ?_⟩
      by_cases hout : ex.ContextRecord.Rsp ≤ 0x10000 ∨ ex.ContextRecord.Rsp ≥ 0x7FFFFFFE0000
      · rw [c1 hout, Outcome.returned.injEq] at h
        subst h
        exact ⟨[], by simp, fun hne => absurd rfl hne, fun _ => ⟨rfl, hregs⟩⟩
      · have h1 : 0x10000 < ex.ContextRecord.Rsp := by omega
        have h2 : ex.ContextRecord.Rsp < 0x7FFFFFFE0000 := by omega
        by_cases hall :
            ∀ i ∈ List.range 16, (env.load (ex.ContextRecord.Rsp + 8 * i)).isSome = true
        · rw [c2 h1 h2 hall, Outcome.returned.injEq] at h
          subst h
          refine ⟨stack_section_of_spec env ex.ContextRecord.Rsp, rfl, fun _ => ?_,
            fun hno => absurd ⟨by omega, h2⟩ hno⟩
          refine ⟨⟨by omega, h2⟩, rfl, fun i hi => hall i (List.mem_range.mpr hi), ?_⟩
          rw [List.filter_append, hregs, stack_entry_events_loads]
          rfl
        · have hex : ∃ i ∈ List.range 16,
              env.load (ex.ContextRecord.Rsp + 8 * i) = none := by
            by_contra hcon
            apply hall
            intro i hi
            cases hl : env.load (ex.ContextRecord.Rsp + 8 * i) with
            | none => exact absurd ⟨i, hi, hl⟩ hcon
            | some v => rfl
          rw [c3 h1 h2 hex] at h
          exact absurd h (by simp)
  · obtain ⟨c1, c2, -⟩ := print_exception_info_cases env fuel ex log w hw
    refine ⟨fun hout => c1 (by omega), fun h1 h2 hall => ⟨_, c2 h1 h2 ?_⟩⟩
    exact fun i hi => hall i (List.mem_range.mp hi)

theorem to_address_string_eq : to_address_string = resolve_flat := by
  funext env a flag
  exact to_address_string_flat env a flag

set_option maxRecDepth 100000 in
/-- The report of the sample process, computed. -/
theorem demo_report_eq :
    print_exception_info demo 1 (demo_fault 0xC0000005 0x50000 0x140001234) []
      = Outcome.returned demo_report := by
  simp only [print_exception_info, print_call_stack, print_registers,
    log_register, log_stack_slot, log_frame, stack_walk, to_address_string_eq]
  decide!

/-- C10 in the sample process, stack pointer 0x50000: the report ends with the Stack section
of the specification, and the sixteen slots from 0x50000 to 0x50078 were loaded in
order. -/
theorem stack_section_only_in_range_witness :
    print_exception_info demo 1 (demo_fault 0xC0000005 0x50000 0x140001234) []
      = Outcome.returned demo_report
    ∧ (∃ before, demo_report.1 = before ++ stack_section_of_spec demo 0x50000)
    ∧ demo_report.2.filter Event.is_load
        = (List.range 16).map (fun i => Event.load (0x50000 + 8 * i)) := by
  obtain ⟨w, hw, stack_section, htext, hpresent, -⟩ :=
    (stack_section_only_in_range demo 1 (demo_fault 0xC0000005 0x50000 0x140001234) []).1
      demo_report demo_report_eq
  have hfull := (print_exception_info_cases demo 1
    (demo_fault 0xC0000005 0x50000 0x140001234) [] w hw).2.1 (by decide) (by decide)
    (by decide)
  rw [demo_report_eq, Outcome.returned.injEq] at hfull
  have hne : stack_section ≠ [] := by
    have h1 := congrArg Prod.fst hfull
    simp only [] at h1
    rw [htext] at h1
    have h2 := List.append_cancel_left h1
    rw [h2]
    simp [stack_section_of_spec]
  obtain ⟨-, hsec, -, hloads⟩ := hpresent hne
  rw [hsec] at htext
  exact ⟨demo_report_eq, ⟨_, htext⟩, hloads⟩

/-! ## The handler -/

/-- C2: while the flag is clear, a fault whose code is not whitelisted, or whose instruction
address is not in the image ffxiv_dx11.exe, makes the handler return
EXCEPTION_CONTINUE_SEARCH at once, with the state as it was: no log, no dump, no alert,
and the flag unchanged. -/
theorem exception_handler_rejected (env : Env) (fuel : Nat) (st : State)
    (ex : EXCEPTION_POINTERS) (hflag : st.g_veh_message_open = false)
    (hrej : is_whitelist_exception env.nt ex.ExceptionRecord.ExceptionCode = false
      ∨ is_ffxiv_address env ex.ContextRecord.Rip = false) :
    exception_handler env fuel st ex = Outcome.returned (st, EXCEPTION_CONTINUE_SEARCH) := by
  unfold exception_handler
  rw [if_neg (by simp [hflag])]
  by_cases hw : is_whitelist_exception env.nt ex.ExceptionRecord.ExceptionCode = true
  · rcases hrej with h | h
    · rw [h] at hw; exact absurd hw (by decide)
    · rw [if_neg (by simp [hw]), if_pos (by simp [h])]
  · rw [if_pos (by simpa using hw)]

/-- C2 in the sample process: a breakpoint in the game image, and an access violation in the
boot image, both without any step budget. -/
theorem exception_handler_rejected_witness :
    exception_handler demo 0 never_installed (demo_fault STATUS_BREAKPOINT 0x50000 0x140001234)
      = Outcome.returned (never_installed, EXCEPTION_CONTINUE_SEARCH)
    ∧ exception_handler demo 0 never_installed (demo_fault 0xC0000005 0x50000 0x180001000)
      = Outcome.returned (never_installed, EXCEPTION_CONTINUE_SEARCH) :=
  ⟨exception_handler_rejected demo 0 never_installed _ rfl (Or.inl (by decide)),
   exception_handler_rejected demo 0 never_installed _ rfl (Or.inr (by decide))⟩

/-- C3: whenever the handler returns, on whichever path, the disposition is
EXCEPTION_CONTINUE_SEARCH, and so not EXCEPTION_CONTINUE_EXECUTION. -/
theorem exception_handler_continue_search (env : Env) (fuel : Nat) (st st1 : State)
    (ex : EXCEPTION_POINTERS) (disposition : Int)
    (h : exception_handler env fuel st ex = Outcome.returned (st1, disposition)) :
    disposition = EXCEPTION_CONTINUE_SEARCH ∧ disposition ≠ EXCEPTION_CONTINUE_EXECUTION := by
  have key : disposition = EXCEPTION_CONTINUE_SEARCH := by
    unfold exception_handler at h
    by_cases h1 : st.g_veh_message_open = true
    · rw [if_pos h1] at h
      exact absurd h (by simp)
    · rw [if_neg h1] at h
      by_cases h2 : (!is_whitelist_exception env.nt ex.ExceptionRecord.ExceptionCode) = true
      · rw [if_pos h2] at h
        exact ((Prod.mk.injEq _ _ _ _).mp (Outcome.returned.inj h)).2.symm
      · rw [if_neg h2] at h
        by_cases h3 : (!is_ffxiv_address env ex.ContextRecord.Rip) = true
        · rw [if_pos h3] at h
          exact ((Prod.mk.injEq _ _ _ _).mp (Outcome.returned.inj h)).2.symm
        · rw [if_neg h3] at h
          simp only [] at h
          split at h
          · exact absurd h (by simp)
          · exact absurd h (by simp)
          · exact ((Prod.mk.injEq _ _ _ _).mp (Outcome.returned.inj h)).2.symm
  exact ⟨key, by rw [key]; decide⟩

set_option maxRecDepth 100000 in
/-- The accepted path in the sample process, computed: an access violation in the game image
leaves the log, the dump and the alert, in this order, and the flag clear. -/
theorem demo_reported_eq :
    exception_handler demo 1 never_installed (demo_fault 0xC0000005 0 0x140001234)
      = Outcome.returned (demo_reported, 0) := by
  simp only [exception_handler, print_exception_info, print_call_stack, print_registers,
    log_register, log_stack_slot, log_frame, stack_walk, to_address_string_eq]
  decide!

/-- C3 on the accepted path of the sample process. -/
theorem exception_handler_continue_search_witness :
    exception_handler demo 1 never_installed (demo_fault 0xC0000005 0 0x140001234)
      = Outcome.returned (demo_reported, 0)
    ∧ (0 : Int) = EXCEPTION_CONTINUE_SEARCH ∧ (0 : Int) ≠ EXCEPTION_CONTINUE_EXECUTION :=
  ⟨demo_reported_eq,
   exception_handler_continue_search demo 1 never_installed demo_reported
     (demo_fault 0xC0000005 0 0x140001234) 0 demo_reported_eq⟩

/-- C5, as the code has it: a thread that finds the flag set when it enters the handler goes
to sleep and stays asleep at every later step, whatever the other threads make of the
flag; it never reaches classification and never returns. The handler run on its own from
a state with the flag set is likewise still running after every budget. -/
theorem guard_sleeps_forever (env : Env) (st : State) (ex : EXCEPTION_POINTERS)
    (flag : Nat → Bool) (hst : st.g_veh_message_open = true) (hflag : flag 0 = true) :
    (∀ n, guard_run flag (n + 1) = Guard.sleeping)
    ∧ (∀ fuel, exception_handler env fuel st ex = Outcome.running) := by
  refine ⟨fun n => ?_, fun fuel => ?_⟩
  · induction n with
    | zero => simp [guard_run, guard_step, hflag]
    | succ n ih => rw [guard_run, ih]; rfl
  · unfold exception_handler
    rw [if_pos hst]

/-- C5 with a flag that is set for the first three steps and clear afterwards: the thread is
asleep after ten steps, and the handler started with the flag set has not returned. -/
theorem guard_sleeps_forever_witness :
    guard_run (fun t => decide (t < 3)) 10 = Guard.sleeping
    ∧ exception_handler demo 1 { never_installed with g_veh_message_open := true }
        (demo_fault 0xC0000005 0 0x140001234) = Outcome.running := by
  have h := guard_sleeps_forever demo { never_installed with g_veh_message_open := true }
    (demo_fault 0xC0000005 0 0x140001234) (fun t => decide (t < 3)) rfl (by decide)
  exact ⟨h.1 9, h.2 1⟩

/-- C5, counterexample: the second thread does not resume. When the alert of the first
fault is dismissed right after the second thread has tested the flag, the second thread
still never reaches classification. -/
theorem guard_counterexample :
    ¬ ∃ n, guard_run (fun t => decide (t = 0)) n = Guard.classifying := by
  rintro ⟨n, hn⟩
  have hsleep : ∀ m, guard_run (fun t => decide (t = 0)) (m + 1) = Guard.sleeping := by
    intro m
    induction m with
    | zero => rfl
    | succ m ih => rw [guard_run, ih]; rfl
  cases n with
  | zero => exact absurd hn (by decide)
  | succ m => rw [hsleep m] at hn; exact absurd hn (by decide)

/-! ## Installing and removing the handler -/

/-- C4: from a state in which no handle is stored, when the system registers and unregisters
successfully (`h` is the fresh handle it returns): `add_handler` returns true and stores
`h`, the chain gaining exactly that one handler; a second `add_handler` returns false and
changes nothing; `remove_handler` before any `add_handler` returns false and changes
nothing; and `remove_handler` after `add_handler` returns true, leaves no handle stored
and takes the handler off the chain again. -/
theorem add_remove_handler (st : State) (h h2 r : Nat) (hst : st.g_veh_handle = 0)
    (hh : h ≠ 0) (hfresh : h ∉ st.veh_chain) (hr : r ≠ 0) :
    (add_handler h st).1 = true
    ∧ (add_handler h st).2.g_veh_handle = h
    ∧ (add_handler h st).2.veh_chain = st.veh_chain ++ [h]
    ∧ add_handler h2 (add_handler h st).2 = (false, (add_handler h st).2)
    ∧ remove_handler r st = (false, st)
    ∧ (remove_handler r (add_handler h st).2).1 = true
    ∧ (remove_handler r (add_handler h st).2).2.g_veh_handle = 0
    ∧ (remove_handler r (add_handler h st).2).2.veh_chain = st.veh_chain := by
  have e1 : (add_handler h st).2.g_veh_handle = h := by simp [add_handler, hst]
  have e2 : (add_handler h st).2.veh_chain = st.veh_chain ++ [h] := by
    simp [add_handler, hst, hh]
  have e3 : (st.veh_chain ++ [h]).erase h = st.veh_chain := by
    rw [List.erase_append_right _ hfresh]
    simp
  refine ⟨by simp [add_handler, hst, hh], e1, e2, ?_, by simp [remove_handler, hst], ?_, ?_, ?_⟩
  · have hstored : (add_handler h st).2.g_veh_handle ≠ 0 := by rw [e1]; exact hh
    generalize (add_handler h st).2 = st1 at hstored
    simp [add_handler, hstored]
  · simp [remove_handler, e1, hh, hr]
  · simp [remove_handler, e1, hh, hr]
  · simp [remove_handler, e1, e2, e3, hh, hr]

/-- C4 from the never-installed state, the system returning the handle 0x1000: after the two
calls of `add_handler` the chain holds that one handler. -/
theorem add_remove_handler_witness :
    add_handler 0x1000 never_installed
      = (true, { never_installed with
          g_veh_handle := 0x1000, veh_chain := [0x1000], trace := [Event.SymInitializeW] })
    ∧ add_handler 0x2000 (add_handler 0x1000 never_installed).2
      = (false, (add_handler 0x1000 never_installed).2)
    ∧ (add_handler 0x2000 (add_handler 0x1000 never_installed).2).2.veh_chain = [0x1000]
    ∧ remove_handler 1 never_installed = (false, never_installed)
    ∧ (remove_handler 1 (add_handler 0x1000 never_installed).2).1 = true
    ∧ (remove_handler 1 (add_handler 0x1000 never_installed).2).2.g_veh_handle = 0
    ∧ (remove_handler 1 (add_handler 0x1000 never_installed).2).2.veh_chain = [] := by
  obtain ⟨-, -, -, h4, h5, h6, h7, h8⟩ :=
    add_remove_handler never_installed 0x1000 0x2000 1 rfl (by decide) (by decide) (by decide)
  exact ⟨by decide, h4, by decide, h5, h6, h7, h8⟩

end DalamudBoot
